import Mathlib

/-!
Verification of the competitor-intelligence dashboard module (`src/app.py`)
against its natural-language specification.

The embedding models the one stateful part of the program: the per-entity
refresh/cache protocol kept in Streamlit session state, together with the
two external collaborators (the news API and the language-model API), which
are supplied as explicit environment values.  External calls performed by a
piece of code are returned as an explicit trace (`List ExtCall`), so that
"does not call the external API" becomes a statement about that trace.
-/

namespace CompIntel

/-- An article as built by `get_company_news` (`src/app.py` lines 48-53). -/
structure Article where
  title : String
  url : String
  source : String
  description : String
deriving Repr, DecidableEq

/-- One item of the news API JSON `feed` array; every field is optional
(`item.get(...)` in the source). -/
structure FeedItem where
  title : Option String
  url : Option String
  source : Option String
  summary : Option String
deriving Repr, DecidableEq

/-- Outcome of the HTTP request + JSON parse in `get_company_news`:
`failure` covers a network error or a non-JSON body (anything raising inside
the `try`), `json none` a JSON body without a `feed` field, and
`json (some feed)` a JSON body with a `feed` array. -/
inductive NewsResponse where
  | failure : NewsResponse
  | json : Option (List FeedItem) → NewsResponse
deriving Repr, DecidableEq

/-- External calls made by the module, recorded as a trace. -/
inductive ExtCall where
  | fetchNews : String → Nat → ExtCall
  | briefLLM : String → ExtCall
  | fullLLM : String → ExtCall
deriving Repr, DecidableEq

/-- The external world: the news API response per ticker, and the two
language-model endpoints (`none` means the call raises). -/
structure Env where
  newsResp : String → NewsResponse
  llmBrief : Option String
  llmFull : Option String

/-- `CompetitorIntelligenceModule.get_company_news` (`src/app.py` lines 36-56):
on failure or missing `feed` return `[]`; otherwise take the first `limit`
feed items and map each to an `Article`, substituting the fixed defaults for
missing fields.  The `company_name` parameter of the source is unused there
and omitted here. -/
def get_company_news (resp : NewsResponse) (limit : Nat) : List Article :=
  match resp with
  | NewsResponse.failure => []
  | NewsResponse.json none => []
  | NewsResponse.json (some feed) =>
      (feed.take limit).map (fun item =>
        { title := item.title.getD "No title"
          url := item.url.getD "#"
          source := item.source.getD "Unknown"
          description := item.summary.getD "" })

/-- The prompt text built by `generate_brief_summary` (lines 63-65):
a header line followed by one bullet per article among the first 3. -/
def brief_news_text (company_name : String) (articles : List Article) : String :=
  (articles.take 3).foldl
    (fun acc a => acc ++ "- " ++ a.title ++ "\n")
    ("Recent " ++ company_name ++ " news:\n")

/-- `CompetitorIntelligenceModule.generate_brief_summary` (lines 58-79):
short-circuits on an empty article list, otherwise calls the chat API and
falls back to a fixed string if the call raises.  Returns the summary
together with the trace of external calls made. -/
def generate_brief_summary (env : Env) (company_name : String)
    (articles : List Article) : String × List ExtCall :=
  if articles.isEmpty then
    ("No recent news available.", [])
  else
    let t := brief_news_text company_name articles
    match env.llmBrief with
    | some s => (s, [ExtCall.briefLLM t])
    | none => ("Analysis temporarily unavailable.", [ExtCall.briefLLM t])

/-- The prompt text built by `generate_full_summary` (lines 149-151):
a header followed by title and description of every supplied article. -/
def full_news_text (company_name : String) (articles : List Article) : String :=
  articles.foldl
    (fun acc a => acc ++ "Title: " ++ a.title ++ "\nSummary: " ++ a.description ++ "\n\n")
    ("Recent news about " ++ company_name ++ ":\n\n")

/-- `CompetitorIntelligenceModule.generate_full_summary` (lines 147-165):
no empty-articles short-circuit; always calls the chat API, and falls back
to a fixed string if the call raises. -/
def generate_full_summary (env : Env) (company_name : String)
    (articles : List Article) : String × List ExtCall :=
  let t := full_news_text company_name articles
  match env.llmFull with
  | some s => (s, [ExtCall.fullLLM t])
  | none => ("Detailed analysis temporarily unavailable.", [ExtCall.fullLLM t])

/-- A cache record as stored under `data_{company_name}` (lines 105-109). -/
structure CacheRecord where
  summary : String
  articles : List Article
  timestamp : Nat
deriving Repr, DecidableEq

/-- The Streamlit session state, restricted to the keys this module uses.
`st.session_state.get(key, False)` reads an absent boolean key as `false`
and `st.session_state.get(key)` reads an absent data key as `none`, so an
absent key and the default value are identified. -/
structure SessionState where
  trigger : String → Bool
  data : String → Option CacheRecord
  showDetails : String → Bool

/-- The session state at session start: every key absent. -/
def initState : SessionState :=
  { trigger := fun _ => false
    data := fun _ => none
    showDetails := fun _ => false }

/-- The fixed competitor roster (`self.competitors`, lines 28-34). -/
def competitors : List (String × String) :=
  [("Progressive", "PGR"), ("Allstate", "ALL"), ("Travelers", "TRV"),
   ("Root Insurance", "ROOT"), ("Lemonade", "LMND")]

/-- The roster's company names, in iteration order. -/
def rosterNames : List String := competitors.map Prod.fst

/-- The spec's per-entity cache states (§4.3). -/
inductive EntityState where
  | empty : EntityState
  | pending : EntityState
  | populated : EntityState
deriving Repr, DecidableEq

/-- Classify one entity per §4.3: `pending` iff RefreshFlag is set,
otherwise `populated` iff a CacheRecord exists, otherwise `empty`. -/
def entityState (s : SessionState) (name : String) : EntityState :=
  if s.trigger name then EntityState.pending
  else if (s.data name).isSome then EntityState.populated
  else EntityState.empty

/-- What the brief column (col2) of a card displays. -/
inductive BriefOutput where
  | fresh : String → List Article → BriefOutput
  | cachedView : String → Nat → Nat → BriefOutput
  | refreshPrompt : BriefOutput
deriving Repr, DecidableEq

/-- What the detail section of a card displays. -/
inductive DetailOutput where
  | detailView : String → List Article → DetailOutput
  | refreshFirstPrompt : DetailOutput
  | noDetail : DetailOutput
deriving Repr, DecidableEq

/-- The headlines shown by a detail output. -/
def DetailOutput.headlines : DetailOutput → List Article
  | DetailOutput.detailView _ hs => hs
  | DetailOutput.refreshFirstPrompt => []
  | DetailOutput.noDetail => []

/-- The triggered branch of `render_competitor_card` col2 (lines 96-109):
fetch news with the default limit 5, build the brief summary, display it,
and — only when the article list is non-empty — store a new cache record.
Note that the source never resets `trigger_{company_name}` here. -/
def runCycle (env : Env) (now : Nat) (company_name ticker : String)
    (s : SessionState) : SessionState × BriefOutput × List ExtCall :=
  let articles := get_company_news (env.newsResp ticker) 5
  let p := generate_brief_summary env company_name articles
  let s' :=
    if articles.isEmpty then s
    else { s with data := fun n =>
            if n = company_name then some ⟨p.1, articles, now⟩ else s.data n }
  (s', BriefOutput.fresh p.1 articles, ExtCall.fetchNews ticker 5 :: p.2)

/-- The col2 body of `render_competitor_card` (lines 94-118): run the cycle
when triggered, otherwise show the cached record or the refresh prompt. -/
def renderBrief (env : Env) (now : Nat) (company_name ticker : String)
    (s : SessionState) : SessionState × BriefOutput × List ExtCall :=
  if s.trigger company_name then
    runCycle env now company_name ticker s
  else
    match s.data company_name with
    | some rec =>
        (s, BriefOutput.cachedView rec.summary rec.articles.length rec.timestamp, [])
    | none => (s, BriefOutput.refreshPrompt, [])

/-- The detail section of `render_competitor_card` (lines 125-145): when the
detail flag is set, render the full analysis and the first 5 cached
headlines if a cache record exists, else the refresh-first warning.  The
detail section performs no news fetch of its own. -/
def renderDetail (env : Env) (company_name : String) (s : SessionState) :
    DetailOutput × List ExtCall :=
  if s.showDetails company_name then
    match s.data company_name with
    | some rec =>
        let p := generate_full_summary env company_name rec.articles
        (DetailOutput.detailView p.1 (rec.articles.take 5), p.2)
    | none => (DetailOutput.refreshFirstPrompt, [])
  else (DetailOutput.noDetail, [])

/-- One full `render_competitor_card` pass (state effects and outputs of the
col2 body followed by the detail section). -/
def render_competitor_card (env : Env) (now : Nat) (company_name ticker : String)
    (s : SessionState) : SessionState × BriefOutput × DetailOutput × List ExtCall :=
  let b := renderBrief env now company_name ticker s
  let d := renderDetail env company_name b.1
  (b.1, b.2.1, d.1, b.2.2 ++ d.2)

/-- Setting one entity's trigger key (line 177 / line 92). -/
def setTrigger (company_name : String) (s : SessionState) : SessionState :=
  { s with trigger := fun n => if n = company_name then true else s.trigger n }

/-- The "Refresh All Data" action (lines 175-178): set the trigger key of
every roster entity. -/
def triggerAll (s : SessionState) : SessionState :=
  rosterNames.foldl (fun st name => setTrigger name st) s

/-- The per-entity body of the "Clear All Cache" loop (lines 183-186):
delete the `data_` and `trigger_` keys of one entity (an absent key reads
as `none` / `false`). -/
def clearEntity (company_name : String) (s : SessionState) : SessionState :=
  { s with
    data := fun n => if n = company_name then none else s.data n
    trigger := fun n => if n = company_name then false else s.trigger n }

/-- The "Clear All Cache" action (lines 181-187): clear every roster
entity. -/
def clearAll (s : SessionState) : SessionState :=
  rosterNames.foldl (fun st name => clearEntity name st) s

/-- Does a call trace contain a news fetch? -/
def hasFetch (trace : List ExtCall) : Bool :=
  trace.any (fun c => match c with
    | ExtCall.fetchNews _ _ => true
    | _ => false)

/-- An environment in which every external call fails. -/
def envNoNews : Env :=
  { newsResp := fun _ => NewsResponse.failure, llmBrief := none, llmFull := none }

/-- An environment whose news feed has a single item and whose LLM calls
succeed. -/
def envOneItem : Env :=
  { newsResp := fun _ => NewsResponse.json (some [⟨some "T1", none, none, none⟩])
    llmBrief := some "Brief summary.", llmFull := some "Full summary." }

/-- A feed item with only a title. -/
def feedItem (i : Nat) : FeedItem :=
  { title := some ("T" ++ toString i), url := none, source := none, summary := none }

/-- An environment whose news feed has 10 items and whose LLM calls
succeed. -/
def envBigFeed : Env :=
  { newsResp := fun _ => NewsResponse.json (some ((List.range 10).map feedItem))
    llmBrief := some "Brief summary.", llmFull := some "Full summary." }

/-- A session state where only the entity Progressive is triggered. -/
def stTrigProg : SessionState :=
  { initState with trigger := fun n => n == "Progressive" }

/-- A session state where Progressive is triggered and its detail view
open. -/
def stDetailProg : SessionState :=
  { initState with
    trigger := fun n => n == "Progressive"
    showDetails := fun n => n == "Progressive" }

/-- A session state where Progressive's detail view is open but no data was
ever fetched. -/
def stDetailNoData : SessionState :=
  { initState with showDetails := fun n => n == "Progressive" }

/-- A session state where Travelers is both populated and re-triggered. -/
def stBusy : SessionState :=
  { trigger := fun n => n == "Travelers"
    data := fun n => if n == "Travelers" then some ⟨"old summary", [], 7⟩ else none
    showDetails := fun n => n == "Travelers" }

/-! ### Claim C1
The spec says a refresh cycle writes a CacheRecord and clears RefreshFlag,
leaving the entity Populated.  The source never resets the
`trigger_{company_name}` key inside `render_competitor_card` (lines
94-109), so after a cycle the flag is still set and the entity is still
`pending`, although the record was written. -/

/-- Claim C1: evaluating the code at the failing input — entity Progressive
triggered, the news feed holding one article — the cycle writes a
CacheRecord, yet the RefreshFlag is still true afterwards and the entity is
in state `pending`, not `populated` as the claim requires. -/
theorem runCycle_leaves_flag_set :
    ((runCycle envOneItem 0 "Progressive" "PGR" stTrigProg).1.data "Progressive").isSome = true ∧
    (runCycle envOneItem 0 "Progressive" "PGR" stTrigProg).1.trigger "Progressive" = true ∧
    entityState (runCycle envOneItem 0 "Progressive" "PGR" stTrigProg).1 "Progressive" =
      EntityState.pending := by
  refine ⟨by decide, by decide, by decide⟩

/-! ### Claim C2
The spec says a cycle whose fetch comes back empty still produces a
CacheRecord.  The source stores the record under `if articles:` (line 102),
so an empty fetch writes nothing. -/

/-- Claim C2 counterexample: with every external call failing, the cycle for
the triggered entity Progressive returns an empty article list and leaves
the entity with no CacheRecord, still in state `pending` — refuting the
claim that a record is always produced. -/
theorem empty_fetch_no_record_counterexample :
    get_company_news (envNoNews.newsResp "PGR") 5 = [] ∧
    (runCycle envNoNews 0 "Progressive" "PGR" stTrigProg).1.data "Progressive" = none ∧
    entityState (runCycle envNoNews 0 "Progressive" "PGR" stTrigProg).1 "Progressive" =
      EntityState.pending := by
  refine ⟨by decide, by decide, by decide⟩

/-- Claim C2 (amended): when the fetch yields no articles, the cycle
displays the fallback summary "No recent news available." but writes no
CacheRecord — the session state is left entirely unchanged, so the entity
stays without a record. -/
theorem empty_fetch_writes_no_record (env : Env) (now : Nat)
    (company_name ticker : String) (s : SessionState)
    (h : get_company_news (env.newsResp ticker) 5 = []) :
    (runCycle env now company_name ticker s).1 = s ∧
    (runCycle env now company_name ticker s).2.1 =
      BriefOutput.fresh "No recent news available." [] := by
  unfold runCycle
  simp [h, generate_brief_summary]

/-- Claim C2 amended-theorem witness at a concrete input. -/
theorem empty_fetch_writes_no_record_witness :
    get_company_news (envNoNews.newsResp "PGR") 5 = [] ∧
    (runCycle envNoNews 0 "Progressive" "PGR" stTrigProg).1 = stTrigProg ∧
    (runCycle envNoNews 0 "Progressive" "PGR" stTrigProg).2.1 =
      BriefOutput.fresh "No recent news available." [] :=
  ⟨by decide,
   (empty_fetch_writes_no_record envNoNews 0 "Progressive" "PGR" stTrigProg (by decide)).1,
   (empty_fetch_writes_no_record envNoNews 0 "Progressive" "PGR" stTrigProg (by decide)).2⟩

/-! ### Claim C3
The brief-view cap of 5 holds, but the detail view performs no fetch at
all: it displays `cached_data.articles[:5]` (line 137), so its headlines
are a prefix of the brief-view result and never exceed 5. -/

/-- Claim C3 counterexample: with a 10-item feed, after a refresh cycle for
Progressive the detail render makes no news-fetch call, and its headlines
are exactly the brief-view fetch result (5 articles) — refuting the claim
that the detail view's articles come from a separate limit-10 superset
fetch rather than from the brief-view result. -/
theorem detail_view_no_superset_fetch_counterexample :
    hasFetch (renderDetail envBigFeed "Progressive"
      (runCycle envBigFeed 0 "Progressive" "PGR" stDetailProg).1).2 = false ∧
    (renderDetail envBigFeed "Progressive"
      (runCycle envBigFeed 0 "Progressive" "PGR" stDetailProg).1).1.headlines =
      get_company_news (envBigFeed.newsResp "PGR") 5 ∧
    (renderDetail envBigFeed "Progressive"
      (runCycle envBigFeed 0 "Progressive" "PGR" stDetailProg).1).1.headlines.length = 5 := by
  refine ⟨by decide, by decide, by decide⟩

/-- Claim C3 (amended): the brief view fetches with limit 5, so its article
count is at most 5 regardless of feed size; the detail view displays at
most the first 5 of the cached articles and performs no news fetch of its
own — there is no separate limit-10 fetch. -/
theorem article_caps (resp : NewsResponse) (env : Env) (company_name : String)
    (s : SessionState) :
    (get_company_news resp 5).length ≤ 5 ∧
    (renderDetail env company_name s).1.headlines.length ≤ 5 ∧
    hasFetch (renderDetail env company_name s).2 = false ∧
    (∀ rec, s.showDetails company_name = true → s.data company_name = some rec →
      (renderDetail env company_name s).1.headlines = rec.articles.take 5) := by
  refine ⟨?_, ?_, ?_, ?_⟩
  · cases resp with
    | failure => simp [get_company_news]
    | json o =>
        cases o with
        | none => simp [get_company_news]
        | some feed =>
            simp only [get_company_news, List.length_map]
            exact le_trans (List.length_take_le 5 feed) (le_refl 5)
  · unfold renderDetail
    by_cases hsd : s.showDetails company_name
    · simp only [hsd, if_true]
      cases hdat : s.data company_name with
      | none => simp [DetailOutput.headlines]
      | some rec =>
          simp only [DetailOutput.headlines, List.length_take]
          omega
    · simp [hsd, DetailOutput.headlines]
  · unfold renderDetail
    by_cases hsd : s.showDetails company_name
    · simp only [hsd, if_true]
      cases hdat : s.data company_name with
      | none => simp [hasFetch]
      | some rec =>
          unfold generate_full_summary
          cases env.llmFull <;> simp [hasFetch]
    · simp [hsd, hasFetch]
  · intro rec hsd hdat
    simp [renderDetail, hsd, hdat, DetailOutput.headlines]

/-- Claim C3 amended-theorem witness at a concrete input. -/
theorem article_caps_witness :
    (get_company_news (NewsResponse.json (some ((List.range 10).map feedItem))) 5).length ≤ 5 ∧
    (renderDetail envBigFeed "Travelers" stBusy).1.headlines.length ≤ 5 ∧
    hasFetch (renderDetail envBigFeed "Travelers" stBusy).2 = false ∧
    stBusy.data "Travelers" = some ⟨"old summary", [], 7⟩ ∧
    (renderDetail envBigFeed "Travelers" stBusy).1.headlines =
      (CacheRecord.mk "old summary" [] 7).articles.take 5 :=
  ⟨(article_caps (NewsResponse.json (some ((List.range 10).map feedItem)))
      envBigFeed "Travelers" stBusy).1,
   (article_caps (NewsResponse.json (some ((List.range 10).map feedItem)))
      envBigFeed "Travelers" stBusy).2.1,
   (article_caps (NewsResponse.json (some ((List.range 10).map feedItem)))
      envBigFeed "Travelers" stBusy).2.2.1,
   by decide,
   (article_caps (NewsResponse.json (some ((List.range 10).map feedItem)))
      envBigFeed "Travelers" stBusy).2.2.2 ⟨"old summary", [], 7⟩ (by decide) (by decide)⟩

/-! ### Claim C4 -/

/-- Claim C4: for every environment and entity name, the brief summary of an
empty article list is exactly "No recent news available." and the call
trace is empty — the language-model API is not called. -/
theorem briefSummary_empty_short_circuit (env : Env) (company_name : String) :
    generate_brief_summary env company_name [] =
      ("No recent news available.", []) := rfl

/-! ### Claim C5 -/

/-- Claim C5: `get_company_news` is fail-soft and total — a network or parse
failure, or a response without a `feed` field, yields `[]`; a response with
a `feed` yields at most `limit` articles, each built from a feed item with
the fixed defaults "No title", "#", "Unknown" and "" substituted for
missing fields. -/
theorem fetchNews_fail_soft (limit : Nat) :
    (get_company_news NewsResponse.failure limit = [] ∧
     get_company_news (NewsResponse.json none) limit = []) ∧
    ∀ feed : List FeedItem,
      (get_company_news (NewsResponse.json (some feed)) limit).length ≤ limit ∧
      get_company_news (NewsResponse.json (some feed)) limit =
        (feed.take limit).map (fun item =>
          { title := item.title.getD "No title"
            url := item.url.getD "#"
            source := item.source.getD "Unknown"
            description := item.summary.getD "" }) := by
  refine ⟨⟨rfl, rfl⟩, fun feed => ⟨?_, rfl⟩⟩
  simp only [get_company_news, List.length_map]
  exact List.length_take_le limit feed

/-! ### Claim C6 -/

/-- Claim C6: "Refresh All Data" sets the trigger flag of every entity in
the 5-entity roster, leaves the trigger flag of every name outside the
roster untouched, and changes no cache record and no detail flag. -/
theorem triggerAll_sets_roster_flags (s : SessionState) :
    (∀ name, name ∈ rosterNames → (triggerAll s).trigger name = true) ∧
    (∀ name, name ∉ rosterNames → (triggerAll s).trigger name = s.trigger name) ∧
    (triggerAll s).data = s.data ∧
    (triggerAll s).showDetails = s.showDetails := by
  refine ⟨?_, ?_, rfl, rfl⟩
  · intro name h
    simp only [rosterNames, competitors, List.map, List.mem_cons,
      List.not_mem_nil, or_false] at h
    rcases h with rfl | rfl | rfl | rfl | rfl <;> rfl
  · intro name h
    simp only [rosterNames, competitors, List.map, List.mem_cons,
      List.not_mem_nil, or_false, not_or] at h
    obtain ⟨h1, h2, h3, h4, h5⟩ := h
    simp [triggerAll, rosterNames, competitors, setTrigger, h1, h2, h3, h4, h5]

/-- Claim C6 witness at a concrete input. -/
theorem triggerAll_sets_roster_flags_witness :
    "Lemonade" ∈ rosterNames ∧
    (triggerAll stBusy).trigger "Lemonade" = true ∧
    "Acme" ∉ rosterNames ∧
    (triggerAll stBusy).trigger "Acme" = stBusy.trigger "Acme" ∧
    (triggerAll stBusy).data = stBusy.data :=
  ⟨by decide,
   (triggerAll_sets_roster_flags stBusy).1 "Lemonade" (by decide),
   by decide,
   (triggerAll_sets_roster_flags stBusy).2.1 "Acme" (by decide),
   (triggerAll_sets_roster_flags stBusy).2.2.1⟩

/-! ### Claim C7 -/

/-- Claim C7: for every roster entity and every prior session state,
"Clear All Cache" removes both the cache record and the trigger flag of
that entity, leaving it in state `empty`. -/
theorem clearAll_empties_roster_entity (s : SessionState) (name : String)
    (h : name ∈ rosterNames) :
    (clearAll s).data name = none ∧
    (clearAll s).trigger name = false ∧
    entityState (clearAll s) name = EntityState.empty := by
  simp only [rosterNames, competitors, List.map, List.mem_cons,
    List.not_mem_nil, or_false] at h
  rcases h with rfl | rfl | rfl | rfl | rfl <;> exact ⟨rfl, rfl, rfl⟩

/-- Claim C7 witness: clearing a state where Travelers is both populated
and re-triggered (spec state `Pending` with a record) leaves Travelers
empty. -/
theorem clearAll_empties_roster_entity_witness :
    "Travelers" ∈ rosterNames ∧
    stBusy.data "Travelers" = some ⟨"old summary", [], 7⟩ ∧
    stBusy.trigger "Travelers" = true ∧
    ((clearAll stBusy).data "Travelers" = none ∧
     (clearAll stBusy).trigger "Travelers" = false ∧
     entityState (clearAll stBusy) "Travelers" = EntityState.empty) :=
  ⟨by decide, by decide, by decide,
   clearAll_empties_roster_entity stBusy "Travelers" (by decide)⟩

/-! ### Claim C8 -/

/-- Claim C8: when an entity's detail flag is set but no cache record
exists, the detail section renders the refresh-first prompt and makes no
external call; moreover the detail section never performs a news fetch in
any state — it never triggers its own fetch. -/
theorem detail_without_record_prompts_refresh (env : Env) (company_name : String)
    (s : SessionState) (hd : s.showDetails company_name = true)
    (hr : s.data company_name = none) :
    renderDetail env company_name s = (DetailOutput.refreshFirstPrompt, []) ∧
    ∀ (env₂ : Env) (s₂ : SessionState),
      hasFetch (renderDetail env₂ company_name s₂).2 = false := by
  constructor
  · simp [renderDetail, hd, hr]
  · intro env₂ s₂
    unfold renderDetail
    by_cases hsd : s₂.showDetails company_name
    · simp only [hsd, if_true]
      cases hdat : s₂.data company_name with
      | none => simp [hasFetch]
      | some rec =>
          unfold generate_full_summary
          cases env₂.llmFull <;> simp [hasFetch]
    · simp [hsd, hasFetch]

/-- Claim C8 witness at a concrete input. -/
theorem detail_without_record_prompts_refresh_witness :
    stDetailNoData.showDetails "Progressive" = true ∧
    stDetailNoData.data "Progressive" = none ∧
    renderDetail envNoNews "Progressive" stDetailNoData =
      (DetailOutput.refreshFirstPrompt, []) :=
  ⟨by decide, by decide,
   (detail_without_record_prompts_refresh envNoNews "Progressive" stDetailNoData
      (by decide) (by decide)).1⟩

/-! ### Claim C9 -/

/-- Claim C9: "Clear All Cache" leaves every entity's detail flag exactly as
it was — an open detail view stays flagged open even though its cache
record has been removed. -/
theorem clearAll_preserves_detail_flags (s : SessionState) :
    (clearAll s).showDetails = s.showDetails := rfl

/-! ### Claim C10 -/

/-- Claim C10: the full summary has no empty-articles short-circuit — for
every environment, entity name and article list (the empty one included)
it performs exactly one language-model call, and when that call fails the
result is exactly "Detailed analysis temporarily unavailable.". -/
theorem fullSummary_no_short_circuit (env : Env) (company_name : String)
    (articles : List Article) :
    (generate_full_summary env company_name articles).2 =
      [ExtCall.fullLLM (full_news_text company_name articles)] ∧
    (env.llmFull = none →
      (generate_full_summary env company_name articles).1 =
        "Detailed analysis temporarily unavailable.") := by
  unfold generate_full_summary
  cases h : env.llmFull <;> simp

/-- Claim C10 witness: evaluated with a failing model endpoint and an empty
article list. -/
theorem fullSummary_no_short_circuit_witness :
    (generate_full_summary envNoNews "Progressive" []).2 =
      [ExtCall.fullLLM (full_news_text "Progressive" [])] ∧
    (generate_full_summary envNoNews "Progressive" []).1 =
      "Detailed analysis temporarily unavailable." :=
  ⟨(fullSummary_no_short_circuit envNoNews "Progressive" []).1,
   (fullSummary_no_short_circuit envNoNews "Progressive" []).2 rfl⟩

end CompIntel
